import Mathlib

/-!
Shallow embedding of the banking CRUD application
(`resources/accountsResource.py`): the accounts collection, the transaction
log, the id sequence counter, and the request handlers for create, update,
delete, deposit, withdraw, block, close, interest and statement generation.
Monetary values are modelled as exact rationals, MongoDB documents as Lean
structures, and `find_one` / `find_one_and_update` as list traversals that
touch the first matching document.  Status and transaction-type fields are
kept as strings, exactly as the source stores them.
-/

set_option maxRecDepth 40000

namespace Banking

/-- An account document, as stored in the `accounts` collection. -/
structure Account where
  id : Nat
  name : String
  balance : ℚ
  status : String
  no_of_months : Int
  address : String
  created_at : Nat
  deriving Repr, DecidableEq

/-- A transaction document, as stored in the `transactions` collection. -/
structure Transaction where
  account_id : Nat
  type : String
  amount : ℚ
  timestamp : Nat
  deriving Repr, DecidableEq

/-- The persistent state: the two collections, the id sequence counter and a
model clock standing in for `datetime.now`. -/
structure DB where
  accounts : List Account
  transactions : List Transaction
  seq : Nat
  now : Nat
  deriving Repr, DecidableEq

/-- An HTTP-level outcome: a status code with either an account body or a
message body. -/
inductive ApiResult where
  | acct (status : Nat) (a : Account)
  | msg (status : Nat) (text : String)
  deriving Repr, DecidableEq

/-- `find_one({"id": i})` on the accounts collection: the first document
whose `id` equals `i`. -/
def findOne (l : List Account) (i : Nat) : Option Account :=
  l.find? (fun a => a.id == i)

/-- `find_one_and_update(filter, update, return_document=True)`: update the
first document satisfying `p` by `f`, returning the updated document and the
new collection; `(none, l)` when nothing matches. -/
def find_one_and_update (l : List Account) (p : Account → Bool)
    (f : Account → Account) : Option Account × List Account :=
  match l with
  | [] => (none, [])
  | a :: rest =>
    if p a then (some (f a), f a :: rest)
    else
      let r := find_one_and_update rest p f
      (r.1, a :: r.2)

/-- `log_transaction`: append a transaction stamped with the current time,
advancing the model clock. -/
def log_transaction (db : DB) (account_id : Nat) (ty : String) (amount : ℚ) :
    DB :=
  { db with
    transactions := db.transactions ++ [⟨account_id, ty, amount, db.now⟩]
    now := db.now + 1 }

/-- `CreateAccountResource.post`, after JSON parsing (absent optional fields
arrive as their `data.get` defaults): validate balance and `no_of_months`,
draw the next sequence id, insert an Active account. -/
def create_account (db : DB) (name : String) (balance : ℚ)
    (no_of_months : Int) (address : String) : ApiResult × DB :=
  if balance < 0 then (.msg 400 "Balance cannot be negative", db)
  else if no_of_months < 0 then
    (.msg 400 "no_of_months must be a non-negative integer", db)
  else
    let account_id := db.seq + 1
    let a : Account :=
      { id := account_id, name := name, balance := balance, status := "Active",
        no_of_months := no_of_months, address := address, created_at := db.now }
    (.acct 201 a,
      { db with accounts := db.accounts ++ [a], seq := account_id,
                now := db.now + 1 })

/-- The JSON body of an update request: each field optionally present. -/
structure UpdatePayload where
  name : Option String
  no_of_months : Option Int
  address : Option String
  deriving Repr, DecidableEq

/-- Apply the `$set` of the validated update fields. -/
def applyUpdate (u : UpdatePayload) (a : Account) : Account :=
  { a with
    name := u.name.getD a.name
    no_of_months := u.no_of_months.getD a.no_of_months
    address := u.address.getD a.address }

/-- `UpdateAccountResource.put`: validate each provided field, require at
least one, then `$set` them atomically on the matching account. -/
def update_account (db : DB) (i : Nat) (data : UpdatePayload) :
    ApiResult × DB :=
  if data.name = some "" then (.msg 400 "Name cannot be empty", db)
  else if data.no_of_months.getD 0 < 0 then
    (.msg 400 "no_of_months must be a non-negative integer", db)
  else if data.address = some "" then (.msg 400 "Address cannot be empty", db)
  else if data.name = none ∧ data.no_of_months = none ∧ data.address = none then
    (.msg 400 "No valid fields provided for update", db)
  else
    let r := find_one_and_update db.accounts (fun a => a.id == i)
      (applyUpdate data)
    match r.1 with
    | some result => (.acct 200 result, { db with accounts := r.2 })
    | none => (.msg 404 ("Account with id " ++ toString i ++ " not found"), db)

/-- `DeleteAccountResource.delete`: require zero balance, then remove the
account and all of its transactions. -/
def delete_account (db : DB) (i : Nat) : ApiResult × DB :=
  match findOne db.accounts i with
  | none => (.msg 404 ("Account with id " ++ toString i ++ " not found"), db)
  | some account =>
    if account.balance ≠ 0 then
      (.msg 400 "Account must have a zero balance before deletion.", db)
    else
      (.msg 200 ("Account with id " ++ toString i ++
          " and all related transactions deleted"),
        { db with
          accounts := db.accounts.eraseP (fun a => a.id == i)
          transactions := db.transactions.filter
            (fun t => t.account_id != i) })

/-- `DepositMoneyResource.post`, after JSON parsing. -/
def deposit (db : DB) (account_id : Nat) (amount : ℚ) : ApiResult × DB :=
  if amount ≤ 0 then (.msg 400 "Deposit amount must be positive", db)
  else
    let r := find_one_and_update db.accounts
      (fun a => a.id == account_id && a.status == "Active")
      (fun a => { a with balance := a.balance + amount })
    match r.1 with
    | some result =>
      (.acct 200 result,
        log_transaction { db with accounts := r.2 } account_id "Deposit" amount)
    | none =>
      match findOne db.accounts account_id with
      | none =>
        (.msg 404 ("Account with id " ++ toString account_id ++ " not found"),
          db)
      | some account_check =>
        (.msg 400 ("Cannot deposit to account status: " ++
          account_check.status), db)

/-- `WithdrawMoneyResource.post`, after JSON parsing. -/
def withdraw (db : DB) (account_id : Nat) (amount : ℚ) : ApiResult × DB :=
  if amount ≤ 0 then (.msg 400 "Withdrawal amount must be positive", db)
  else
    match findOne db.accounts account_id with
    | none =>
      (.msg 404 ("Account with id " ++ toString account_id ++ " not found"),
        db)
    | some account =>
      if account.status ≠ "Active" then
        (.msg 400 ("Cannot withdraw from account status: " ++ account.status),
          db)
      else if account.balance < amount then
        (.msg 400 "Insufficient balance", db)
      else
        let r := find_one_and_update db.accounts
          (fun a => a.id == account_id)
          (fun a => { a with balance := a.balance - amount })
        match r.1 with
        | some result =>
          (.acct 200 result,
            log_transaction { db with accounts := r.2 } account_id
              "Withdrawal" amount)
        | none => (.msg 500 "Withdrawal failed due to an unknown error", db)

/-- `BlockAccountResource.put`. -/
def block_account (db : DB) (i : Nat) : ApiResult × DB :=
  let r := find_one_and_update db.accounts
    (fun a => a.id == i && a.status == "Active")
    (fun a => { a with status := "Blocked" })
  match r.1 with
  | some result => (.acct 200 result, { db with accounts := r.2 })
  | none =>
    match findOne db.accounts i with
    | none => (.msg 404 ("Account with id " ++ toString i ++ " not found"), db)
    | some account_check =>
      (.msg 200 ("Account with id " ++ toString i ++ " is already " ++
        account_check.status), db)

/-- `CloseAccountResource.put`. -/
def close_account (db : DB) (i : Nat) : ApiResult × DB :=
  match findOne db.accounts i with
  | none => (.msg 404 ("Account with id " ++ toString i ++ " not found"), db)
  | some account =>
    if account.balance ≠ 0 then
      (.msg 400 "Account must have a zero balance before closing.", db)
    else
      let r := find_one_and_update db.accounts
        (fun a => a.id == i && a.status != "Closed")
        (fun a => { a with status := "Closed" })
      match r.1 with
      | some result => (.acct 200 result, { db with accounts := r.2 })
      | none =>
        (.msg 200 ("Account with id " ++ toString i ++ " is already Closed"),
          db)

/-- Python `round` to an integer: banker's rounding (round half to even). -/
def pyRoundInt (q : ℚ) : Int :=
  let f := ⌊q⌋
  let r := q - (f : ℚ)
  if r < 1/2 then f
  else if 1/2 < r then f + 1
  else if f % 2 = 0 then f else f + 1

/-- Python `round(x, 2)`. -/
def round2 (q : ℚ) : ℚ := (pyRoundInt (q * 100) : ℚ) / 100

/-- `MonthlyInterestResource.ANNUAL_RATE = 0.05`. -/
def ANNUAL_RATE : ℚ := 5 / 100

/-- The successful interest computation payload (presentation echoes of the
rates omitted). -/
structure InterestInfo where
  account_id : Nat
  current_balance : ℚ
  no_of_months : Int
  calculated_interest_amount : ℚ
  deriving Repr, DecidableEq

/-- Outcome of the interest endpoint. -/
inductive InterestResult where
  | ok (info : InterestInfo)
  | msg (status : Nat) (text : String)
  deriving Repr, DecidableEq

/-- `MonthlyInterestResource.get`: a pure read computing simple interest;
the state is returned untouched. -/
def monthly_interest (db : DB) (account_id : Nat) : InterestResult × DB :=
  match findOne db.accounts account_id with
  | none =>
    (.msg 404 ("Account with id " ++ toString account_id ++ " not found"), db)
  | some account =>
    if account.status ≠ "Active" then
      (.msg 400 ("Cannot calculate interest for closed or inactive account status: "
        ++ account.status), db)
    else if account.no_of_months ≤ 0 then
      (.msg 400 "Account is not configured for monthly interest calculation (no_of_months is zero or negative).",
        db)
    else
      let monthly_rate := ANNUAL_RATE / 12
      let total_interest :=
        account.balance * (monthly_rate * (account.no_of_months : ℚ))
      (.ok { account_id := account_id,
             current_balance := round2 account.balance,
             no_of_months := account.no_of_months,
             calculated_interest_amount := round2 total_interest }, db)

/-- Insert a transaction into a timestamp-ascending list. -/
def insertByTimestamp (t : Transaction) :
    List Transaction → List Transaction
  | [] => [t]
  | u :: us =>
    if t.timestamp ≤ u.timestamp then t :: u :: us
    else u :: insertByTimestamp t us

/-- `.sort("timestamp", 1)`: ascending sort by timestamp. -/
def sortByTimestamp : List Transaction → List Transaction
  | [] => []
  | t :: ts => insertByTimestamp t (sortByTimestamp ts)

/-- One statement row: a transaction annotated with its running balance. -/
structure StatementTx where
  type : String
  amount : ℚ
  timestamp : Nat
  running_balance : ℚ
  deriving Repr, DecidableEq

/-- The running-balance walk of `_get_statement_data`: accumulate the exact
balance, stamping each row with the rounded running balance.  The comparison
is with the lowercase string, exactly as in the source. -/
def runningRows (bal : ℚ) : List Transaction → List StatementTx
  | [] => []
  | t :: ts =>
    let newBal := if t.type == "deposit" then bal + t.amount
                  else bal - t.amount
    { type := t.type, amount := t.amount, timestamp := t.timestamp,
      running_balance := round2 newBal } :: runningRows newBal ts

/-- The data `_get_statement_data` hands to both statement renderers. -/
structure StatementData where
  account : Account
  transactions : List StatementTx
  opening_balance : ℚ
  deriving Repr, DecidableEq

/-- `_get_statement_data`: net the (lowercase-compared) signed amounts,
derive the opening balance, then walk forward computing running balances;
`none` models the 404 branch. -/
def get_statement_data (db : DB) (account_id : Nat) : Option StatementData :=
  match findOne db.accounts account_id with
  | none => none
  | some account =>
    let temp := sortByTimestamp
      (db.transactions.filter (fun t => t.account_id == account_id))
    let total_net :=
      (temp.map (fun t => if t.type == "deposit" then t.amount
                          else -t.amount)).sum
    let opening_balance := round2 (account.balance - total_net)
    some { account := account,
           transactions := runningRows opening_balance temp,
           opening_balance := opening_balance }

/-- The structured statement body of `AccountStatementJsonResource.get`
(the generation timestamp, a presentation field, omitted). -/
structure Statement where
  account_id : Nat
  account_holder : String
  opening_balance : ℚ
  closing_balance : ℚ
  transactions : List StatementTx
  deriving Repr, DecidableEq

/-- `AccountStatementJsonResource.get`. -/
def account_statement (db : DB) (i : Nat) : Option Statement :=
  (get_statement_data db i).map (fun d =>
    { account_id := d.account.id, account_holder := d.account.name,
      opening_balance := d.opening_balance,
      closing_balance := d.account.balance,
      transactions := d.transactions })

/-- The signed amount of a logged transaction as the spec reads the log:
deposits count positive, withdrawals negative. -/
def signedAmount (t : Transaction) : ℚ :=
  if t.type = "Deposit" then t.amount
  else if t.type = "Withdrawal" then -t.amount
  else 0

/-- Σ of signed amounts of the transactions of account `i`. -/
def signedSum (i : Nat) (txs : List Transaction) : ℚ :=
  (txs.map (fun t => if t.account_id = i then signedAmount t else 0)).sum

/-- One sequential API call of the account-mutating kinds that claim C2
interleaves after creation. -/
inductive Op where
  | deposit (i : Nat) (amount : ℚ)
  | withdraw (i : Nat) (amount : ℚ)
  | update (i : Nat) (data : UpdatePayload)
  | block (i : Nat)
  | close (i : Nat)
  deriving Repr, DecidableEq

/-- Apply one operation, discarding the HTTP result. -/
def applyOp (db : DB) : Op → DB
  | .deposit i amount => (deposit db i amount).2
  | .withdraw i amount => (withdraw db i amount).2
  | .update i data => (update_account db i data).2
  | .block i => (block_account db i).2
  | .close i => (close_account db i).2

/-- Run a sequence of operations. -/
def runOps (db : DB) (ops : List Op) : DB := ops.foldl applyOp db

/-- The HTTP status code of an outcome. -/
def statusOf : ApiResult → Nat
  | .acct s _ => s
  | .msg s _ => s

/-- Every stored account has a non-empty name. -/
def noEmptyName (l : List Account) : Prop := ∀ a ∈ l, a.name ≠ ""

/-- The balance-reconstruction invariant of claim C2 for the account with
id `i` and creation-time balance `bal0`: the accounts collection holds
exactly one document with that id, and its balance is the creation balance
plus the signed sum of its logged transactions. -/
def BalInv (i : Nat) (bal0 : ℚ) (db : DB) : Prop :=
  ∃ a, db.accounts.filter (fun x => x.id == i) = [a] ∧
    a.balance = bal0 + signedSum i db.transactions

/-- The empty initial state. -/
def db0 : DB := { accounts := [], transactions := [], seq := 0, now := 0 }

/-- Claim C1's failing trace: create an account with opening balance 0,
then deposit 100. -/
def dbC1 : DB :=
  (deposit (create_account db0 "Alice" 0 0 "Address not specified").2 1 100).2

/-- Claim C3's scenario trace: create with balance 0, deposit 100, then
withdraw 30. -/
def dbS3 : DB :=
  (withdraw
    (deposit (create_account db0 "Carol" 0 0 "Address not specified").2
      1 100).2 1 30).2

/-- A store holding one Active account, used to instantiate theorems. -/
def acctW : Account :=
  { id := 1, name := "Dana", balance := 50, status := "Active",
    no_of_months := 6, address := "5 W St", created_at := 0 }

def dbW : DB := { accounts := [acctW], transactions := [], seq := 1, now := 3 }

/-- A store holding one Blocked account. -/
def acctB : Account :=
  { id := 1, name := "Eve", balance := 20, status := "Blocked",
    no_of_months := 0, address := "6 W St", created_at := 0 }

def dbB : DB := { accounts := [acctB], transactions := [], seq := 1, now := 3 }

/-- A store holding one Active zero-balance account. -/
def acctZ : Account :=
  { id := 1, name := "Fay", balance := 0, status := "Active",
    no_of_months := 0, address := "7 W St", created_at := 0 }

def dbZ : DB := { accounts := [acctZ], transactions := [], seq := 1, now := 3 }

/-- A store holding one Active account with balance 1000 and a 6 month
term. -/
def acctI : Account :=
  { id := 1, name := "Gil", balance := 1000, status := "Active",
    no_of_months := 6, address := "8 W St", created_at := 0 }

def dbI : DB := { accounts := [acctI], transactions := [], seq := 1, now := 3 }

/-- An update request renaming the account. -/
def payloadW : UpdatePayload :=
  { name := some "Bob", no_of_months := none, address := none }

/-! ### Lemmas about the store primitives -/

lemma find_one_and_update_fst (l : List Account) (p : Account → Bool)
    (f : Account → Account) :
    (find_one_and_update l p f).1 = (l.find? p).map f := by
  induction l with
  | nil => rfl
  | cons a rest ih =>
    by_cases hpa : p a = true
    · simp [find_one_and_update, hpa, List.find?_cons_of_pos]
    · simp only [Bool.not_eq_true] at hpa
      simp [find_one_and_update, hpa, List.find?_cons_of_neg, ih]

lemma find_one_and_update_of_forall_false (l : List Account)
    (p : Account → Bool) (f : Account → Account)
    (h : ∀ a ∈ l, p a = false) : find_one_and_update l p f = (none, l) := by
  induction l with
  | nil => rfl
  | cons a rest ih =>
    have ha : p a = false := h a (List.mem_cons_self a rest)
    have hrest := ih (fun b hb => h b (List.mem_cons_of_mem a hb))
    simp [find_one_and_update, ha, hrest]

lemma filter_singleton_find? (l : List Account) (i : Nat) (a : Account)
    (h : l.filter (fun x => x.id == i) = [a]) :
    l.find? (fun x => x.id == i) = some a := by
  induction l with
  | nil => simp at h
  | cons b rest ih =>
    by_cases hb : (b.id == i) = true
    · simp only [List.filter_cons, hb, if_true] at h
      simp only [List.find?_cons, hb, if_true]
      exact congrArg some (List.cons_eq_cons.mp h).1
    · simp only [Bool.not_eq_true] at hb
      simp only [List.filter_cons, hb, if_false] at h
      rw [List.find?_cons_of_neg _ (by simp [hb])]
      exact ih h

lemma filter_nil_forall (l : List Account) (i : Nat)
    (h : l.filter (fun x => x.id == i) = []) :
    ∀ b ∈ l, (b.id == i) = false := by
  intro b hb
  by_contra hcon
  simp only [Bool.not_eq_false] at hcon
  have : b ∈ l.filter (fun x => x.id == i) := List.mem_filter.mpr ⟨hb, hcon⟩
  simp [h] at this

lemma filter_nil_find? (l : List Account) (i : Nat)
    (h : l.filter (fun x => x.id == i) = []) :
    l.find? (fun x => x.id == i) = none :=
  List.find?_eq_none.mpr (fun b hb => by simp [filter_nil_forall l i h b hb])

lemma filter_singleton_mem (l : List Account) (i : Nat) (a : Account)
    (h : l.filter (fun x => x.id == i) = [a]) :
    ∀ b ∈ l, b.id = i → b = a := by
  induction l with
  | nil => simp
  | cons c rest ih =>
    intro b hb hbi
    by_cases hc : (c.id == i) = true
    · simp only [List.filter_cons, hc, if_true] at h
      have hca : c = a := (List.cons_eq_cons.mp h).1
      have hrest : rest.filter (fun x => x.id == i) = [] :=
        (List.cons_eq_cons.mp h).2
      rcases List.mem_cons.mp hb with rfl | hbr
      · exact hca
      · exact absurd (beq_iff_eq.mpr hbi) (by simp [filter_nil_forall rest i hrest b hbr])
    · simp only [Bool.not_eq_true] at hc
      simp only [List.filter_cons, hc, if_false] at h
      rcases List.mem_cons.mp hb with rfl | hbr
      · exact absurd (beq_iff_eq.mpr hbi) (by simp [hc])
      · exact ih h b hbr hbi

lemma fOAU_snd_filter_ne (l : List Account) (p : Account → Bool)
    (f : Account → Account) (i j : Nat) (hij : j ≠ i)
    (hp : ∀ a, p a = true → a.id = j) (hf : ∀ a, (f a).id = a.id) :
    (find_one_and_update l p f).2.filter (fun x => x.id == i) =
      l.filter (fun x => x.id == i) := by
  induction l with
  | nil => rfl
  | cons a rest ih =>
    by_cases hpa : p a = true
    · have haj : a.id = j := hp a hpa
      have h1 : ((f a).id == i) = false := by
        simp [hf a, haj, hij]
      have h2 : (a.id == i) = false := by simp [haj, hij]
      simp [find_one_and_update, hpa, List.filter_cons, h1, h2]
    · simp only [Bool.not_eq_true] at hpa
      simp [find_one_and_update, hpa, List.filter_cons, ih]

lemma fOAU_hit (l : List Account) (p : Account → Bool)
    (f : Account → Account) (i : Nat) (a : Account)
    (h : l.filter (fun x => x.id == i) = [a])
    (hp : ∀ b, p b = true → b.id = i) (hf : ∀ b, (f b).id = b.id)
    (hpa : p a = true) :
    (find_one_and_update l p f).1 = some (f a) ∧
      (find_one_and_update l p f).2.filter (fun x => x.id == i) = [f a] := by
  induction l with
  | nil => simp at h
  | cons b rest ih =>
    by_cases hb : (b.id == i) = true
    · simp only [List.filter_cons, hb, if_true] at h
      have hba : b = a := (List.cons_eq_cons.mp h).1
      have hrest : rest.filter (fun x => x.id == i) = [] :=
        (List.cons_eq_cons.mp h).2
      subst hba
      have h1 : ((f b).id == i) = true := by simp [hf b]; exact beq_iff_eq.mp hb
      simp [find_one_and_update, hpa, List.filter_cons, h1, hrest]
    · simp only [Bool.not_eq_true] at hb
      have hpb : p b = false := by
        by_contra hcon
        simp only [Bool.not_eq_false] at hcon
        have := hp b hcon
        simp [this] at hb
      simp only [List.filter_cons, hb, if_false] at h
      obtain ⟨ih1, ih2⟩ := ih h
      constructor
      · simp [find_one_and_update, hpb, ih1]
      · simp [find_one_and_update, hpb, List.filter_cons, hb, ih2]

lemma fOAU_miss (l : List Account) (p : Account → Bool)
    (f : Account → Account) (i : Nat) (a : Account)
    (h : l.filter (fun x => x.id == i) = [a])
    (hp : ∀ b, p b = true → b.id = i) (hpa : p a = false) :
    find_one_and_update l p f = (none, l) := by
  apply find_one_and_update_of_forall_false
  intro b hb
  by_contra hcon
  simp only [Bool.not_eq_false] at hcon
  have hbi : b.id = i := hp b hcon
  have hba : b = a := filter_singleton_mem l i a h b hb hbi
  rw [hba] at hcon
  simp [hpa] at hcon

lemma mem_fOAU_snd (l : List Account) (p : Account → Bool)
    (f : Account → Account) :
    ∀ b ∈ (find_one_and_update l p f).2, b ∈ l ∨ ∃ a ∈ l, b = f a := by
  induction l with
  | nil => simp [find_one_and_update]
  | cons a rest ih =>
    intro b hb
    by_cases hpa : p a = true
    · simp only [find_one_and_update, hpa, if_true] at hb
      rcases List.mem_cons.mp hb with rfl | hbr
      · exact Or.inr ⟨a, List.mem_cons_self a rest, rfl⟩
      · exact Or.inl (List.mem_cons_of_mem a hbr)
    · simp only [Bool.not_eq_true] at hpa
      simp only [find_one_and_update, hpa, Bool.false_eq_true, if_false] at hb
      rcases List.mem_cons.mp hb with rfl | hbr
      · exact Or.inl (List.mem_cons_self b rest)
      · rcases ih b hbr with h1 | ⟨c, hc, rfl⟩
        · exact Or.inl (List.mem_cons_of_mem a h1)
        · exact Or.inr ⟨c, List.mem_cons_of_mem a hc, rfl⟩

lemma findOne_eraseP (l : List Account) (i : Nat) (a : Account)
    (h : l.filter (fun x => x.id == i) = [a]) :
    findOne (l.eraseP (fun x => x.id == i)) i = none := by
  induction l with
  | nil => simp at h
  | cons b rest ih =>
    by_cases hb : (b.id == i) = true
    · simp only [List.filter_cons, hb, if_true] at h
      have hrest : rest.filter (fun x => x.id == i) = [] :=
        (List.cons_eq_cons.mp h).2
      rw [show List.eraseP (fun x => x.id == i) (b :: rest) = rest from by
        simp [List.eraseP_cons, hb]]
      exact filter_nil_find? rest i hrest
    · simp only [Bool.not_eq_true] at hb
      simp only [List.filter_cons, hb, if_false] at h
      rw [List.eraseP_cons_of_neg (by simp [hb])]
      unfold findOne
      rw [List.find?_cons_of_neg _ (by simp [hb])]
      exact ih h

lemma filter_of_forall_ne (l : List Account) (i : Nat)
    (h : ∀ a ∈ l, a.id ≠ i) : l.filter (fun x => x.id == i) = [] := by
  induction l with
  | nil => rfl
  | cons a rest ih =>
    have ha : (a.id == i) = false := by
      simp [h a (List.mem_cons_self a rest)]
    simp [List.filter_cons, ha,
      ih (fun b hb => h b (List.mem_cons_of_mem a hb))]

/-! ### Lemmas about the transaction log -/

lemma signedSum_append (i : Nat) (txs : List Transaction) (t : Transaction) :
    signedSum i (txs ++ [t]) =
      signedSum i txs + (if t.account_id = i then signedAmount t else 0) := by
  simp [signedSum, List.map_append, List.sum_append]

lemma signedSum_of_forall_ne (i : Nat) (txs : List Transaction)
    (h : ∀ t ∈ txs, t.account_id ≠ i) : signedSum i txs = 0 := by
  induction txs with
  | nil => rfl
  | cons t rest ih =>
    have ht : ¬ t.account_id = i := h t (List.mem_cons_self t rest)
    have := ih (fun u hu => h u (List.mem_cons_of_mem t hu))
    simp [signedSum] at this ⊢
    simp [ht, this]

lemma txfilter_filter_ne (l : List Transaction) (i : Nat) :
    (l.filter (fun t => t.account_id != i)).filter
      (fun t => t.account_id == i) = [] := by
  induction l with
  | nil => rfl
  | cons t rest ih =>
    by_cases ht : (t.account_id == i) = true
    · have h1 : (t.account_id != i) = false := by simp [bne]; exact beq_iff_eq.mp ht
      simp [List.filter_cons, h1, ih]
    · simp only [Bool.not_eq_true] at ht
      have h1 : (t.account_id != i) = true := by simp [bne, ht]
      simp [List.filter_cons, h1, ht, ih]

/-! ### Preservation of the balance invariant by each operation -/

lemma filter_singleton_self (l : List Account) (i : Nat) (a : Account)
    (h : l.filter (fun x => x.id == i) = [a]) : a.id = i := by
  have ha : a ∈ l.filter (fun x => x.id == i) := by simp [h]
  exact beq_iff_eq.mp (List.mem_filter.mp ha).2

lemma balInv_fOAU (i : Nat) (bal0 : ℚ) (db : DB) (j : Nat)
    (p : Account → Bool) (F : Account → Account)
    (hpid : ∀ b, p b = true → b.id = j)
    (hfid : ∀ b, (F b).id = b.id)
    (hfbal : ∀ b, (F b).balance = b.balance)
    (h : BalInv i bal0 db) :
    BalInv i bal0 { db with accounts := (find_one_and_update db.accounts p F).2 } := by
  obtain ⟨a, hfil, hbal⟩ := h
  by_cases hij : j = i
  · subst hij
    by_cases hpa : p a = true
    · obtain ⟨h1, h2⟩ := fOAU_hit db.accounts p F j a hfil hpid hfid hpa
      exact ⟨F a, h2, by rw [hfbal a]; exact hbal⟩
    · rw [fOAU_miss db.accounts p F j a hfil hpid (by simpa using hpa)]
      exact ⟨a, hfil, hbal⟩
  · refine ⟨a, ?_, hbal⟩
    rw [fOAU_snd_filter_ne db.accounts p F i j hij hpid hfid]
    exact hfil

lemma balInv_deposit (i : Nat) (bal0 : ℚ) (db : DB) (j : Nat) (amt : ℚ)
    (h : BalInv i bal0 db) : BalInv i bal0 (deposit db j amt).2 := by
  obtain ⟨a, hfil, hbal⟩ := h
  by_cases hamt : amt ≤ 0
  · have hd : (deposit db j amt).2 = db := by simp [deposit, hamt]
    rw [hd]; exact ⟨a, hfil, hbal⟩
  · have hpid : ∀ b : Account,
        (b.id == j && b.status == "Active") = true → b.id = j := by
      intro b hb
      simp only [Bool.and_eq_true, beq_iff_eq] at hb
      exact hb.1
    have hfid : ∀ b : Account,
        ({ b with balance := b.balance + amt } : Account).id = b.id :=
      fun b => rfl
    by_cases hij : j = i
    · subst hij
      by_cases hact : a.status = "Active"
      · have hpa : (a.id == j && a.status == "Active") = true := by
          simp [Bool.and_eq_true, beq_iff_eq,
            filter_singleton_self db.accounts j a hfil, hact]
        obtain ⟨h1, h2⟩ := fOAU_hit db.accounts
          (fun x => x.id == j && x.status == "Active")
          (fun x => { x with balance := x.balance + amt }) j a hfil hpid hfid hpa
        have hd : (deposit db j amt).2 =
            { db with
              accounts := (find_one_and_update db.accounts
                (fun x => x.id == j && x.status == "Active")
                (fun x => { x with balance := x.balance + amt })).2,
              transactions := db.transactions ++
                [{ account_id := j, type := "Deposit", amount := amt,
                   timestamp := db.now }],
              now := db.now + 1 } := by
          simp [deposit, hamt, h1, log_transaction]
        rw [hd]
        refine ⟨{ a with balance := a.balance + amt }, h2, ?_⟩
        show a.balance + amt = bal0 + signedSum j (db.transactions ++ _)
        rw [signedSum_append]
        simp [signedAmount, hbal]
        ring
      · have hpa : (a.id == j && a.status == "Active") = false := by
          simp [Bool.and_eq_true, beq_iff_eq, hact]
        have hnone := fOAU_miss db.accounts
          (fun x => x.id == j && x.status == "Active")
          (fun x => { x with balance := x.balance + amt }) j a hfil hpid hpa
        have hd : (deposit db j amt).2 = db := by
          rcases hfo : findOne db.accounts j with _ | b
          · simp [deposit, hamt, hnone, hfo]
          · simp [deposit, hamt, hnone, hfo]
        rw [hd]; exact ⟨a, hfil, hbal⟩
    · rcases hr : (find_one_and_update db.accounts
        (fun x => x.id == j && x.status == "Active")
        (fun x => { x with balance := x.balance + amt })).1 with _ | b
      · have hd : (deposit db j amt).2 = db := by
          rcases hfo : findOne db.accounts j with _ | c
          · simp [deposit, hamt, hr, hfo]
          · simp [deposit, hamt, hr, hfo]
        rw [hd]; exact ⟨a, hfil, hbal⟩
      · have hd : (deposit db j amt).2 =
            { db with
              accounts := (find_one_and_update db.accounts
                (fun x => x.id == j && x.status == "Active")
                (fun x => { x with balance := x.balance + amt })).2,
              transactions := db.transactions ++
                [{ account_id := j, type := "Deposit", amount := amt,
                   timestamp := db.now }],
              now := db.now + 1 } := by
          simp [deposit, hamt, hr, log_transaction]
        rw [hd]
        refine ⟨a, ?_, ?_⟩
        · rw [fOAU_snd_filter_ne db.accounts _ _ i j hij hpid hfid]
          exact hfil
        · rw [signedSum_append]
          simp [hij, hbal]

lemma balInv_withdraw (i : Nat) (bal0 : ℚ) (db : DB) (j : Nat) (amt : ℚ)
    (h : BalInv i bal0 db) : BalInv i bal0 (withdraw db j amt).2 := by
  obtain ⟨a, hfil, hbal⟩ := h
  by_cases hamt : amt ≤ 0
  · have hd : (withdraw db j amt).2 = db := by simp [withdraw, hamt]
    rw [hd]; exact ⟨a, hfil, hbal⟩
  · have hpid : ∀ b : Account, (b.id == j) = true → b.id = j := by
      intro b hb
      exact beq_iff_eq.mp hb
    have hfid : ∀ b : Account,
        ({ b with balance := b.balance - amt } : Account).id = b.id :=
      fun b => rfl
    rcases hfo : findOne db.accounts j with _ | c
    · have hd : (withdraw db j amt).2 = db := by simp [withdraw, hamt, hfo]
      rw [hd]; exact ⟨a, hfil, hbal⟩
    · by_cases hact : c.status = "Active"
      · by_cases hins : c.balance < amt
        · have hd : (withdraw db j amt).2 = db := by
            simp [withdraw, hamt, hfo, hact, hins]
          rw [hd]; exact ⟨a, hfil, hbal⟩
        · by_cases hij : j = i
          · subst hij
            have hca : c = a := by
              have hae := filter_singleton_find? db.accounts j a hfil
              unfold findOne at hfo
              exact (Option.some_inj.mp (hae.symm.trans hfo)).symm
            subst hca
            have hpa : (c.id == j) = true :=
              beq_iff_eq.mpr (filter_singleton_self db.accounts j c hfil)
            obtain ⟨h1, h2⟩ := fOAU_hit db.accounts (fun x => x.id == j)
              (fun x => { x with balance := x.balance - amt }) j c hfil hpid
              hfid hpa
            have hd : (withdraw db j amt).2 =
                { db with
                  accounts := (find_one_and_update db.accounts
                    (fun x => x.id == j)
                    (fun x => { x with balance := x.balance - amt })).2,
                  transactions := db.transactions ++
                    [{ account_id := j, type := "Withdrawal", amount := amt,
                       timestamp := db.now }],
                  now := db.now + 1 } := by
              simp [withdraw, hamt, hfo, hact, hins, h1, log_transaction]
            rw [hd]
            refine ⟨{ c with balance := c.balance - amt }, h2, ?_⟩
            show c.balance - amt = bal0 + signedSum j (db.transactions ++ _)
            rw [signedSum_append]
            simp [signedAmount, hbal]
            ring
          · rcases hr : (find_one_and_update db.accounts
              (fun x => x.id == j)
              (fun x => { x with balance := x.balance - amt })).1 with _ | b
            · have hd : (withdraw db j amt).2 = db := by
                simp [withdraw, hamt, hfo, hact, hins, hr]
              rw [hd]; exact ⟨a, hfil, hbal⟩
            · have hd : (withdraw db j amt).2 =
                  { db with
                    accounts := (find_one_and_update db.accounts
                      (fun x => x.id == j)
                      (fun x => { x with balance := x.balance - amt })).2,
                    transactions := db.transactions ++
                      [{ account_id := j, type := "Withdrawal", amount := amt,
                         timestamp := db.now }],
                    now := db.now + 1 } := by
                simp [withdraw, hamt, hfo, hact, hins, hr, log_transaction]
              rw [hd]
              refine ⟨a, ?_, ?_⟩
              · rw [fOAU_snd_filter_ne db.accounts _ _ i j hij hpid hfid]
                exact hfil
              · rw [signedSum_append]
                simp [hij, hbal]
      · have hd : (withdraw db j amt).2 = db := by
          simp [withdraw, hamt, hfo, hact]
        rw [hd]; exact ⟨a, hfil, hbal⟩


lemma balInv_update (i : Nat) (bal0 : ℚ) (db : DB) (j : Nat)
    (data : UpdatePayload) (h : BalInv i bal0 db) :
    BalInv i bal0 (update_account db j data).2 := by
  by_cases h1 : data.name = some ""
  · have hd : (update_account db j data).2 = db := by simp [update_account, h1]
    rw [hd]; exact h
  · by_cases h2 : data.no_of_months.getD 0 < 0
    · have hd : (update_account db j data).2 = db := by
        simp [update_account, h1, h2]
      rw [hd]; exact h
    · by_cases h3 : data.address = some ""
      · have hd : (update_account db j data).2 = db := by
          simp [update_account, h1, h2, h3]
        rw [hd]; exact h
      · by_cases h4 : data.name = none ∧ data.no_of_months = none ∧
          data.address = none
        · have hd : (update_account db j data).2 = db := by
            simp [update_account, h1, h2, h3, h4]
          rw [hd]; exact h
        · rcases hr : (find_one_and_update db.accounts (fun a => a.id == j)
            (applyUpdate data)).1 with _ | b
          · have hd : (update_account db j data).2 = db := by
              simp [update_account, h1, h2, h3, h4, hr]
            rw [hd]; exact h
          · have hd : (update_account db j data).2 =
                { db with accounts := (find_one_and_update db.accounts
                  (fun a => a.id == j) (applyUpdate data)).2 } := by
              simp [update_account, h1, h2, h3, h4, hr]
            rw [hd]
            exact balInv_fOAU i bal0 db j _ _
              (fun b hb => beq_iff_eq.mp hb) (fun b => rfl) (fun b => rfl) h

lemma balInv_block (i : Nat) (bal0 : ℚ) (db : DB) (j : Nat)
    (h : BalInv i bal0 db) : BalInv i bal0 (block_account db j).2 := by
  rcases hr : (find_one_and_update db.accounts
    (fun a => a.id == j && a.status == "Active")
    (fun a => { a with status := "Blocked" })).1 with _ | b
  · have hd : (block_account db j).2 = db := by
      rcases hfo : findOne db.accounts j with _ | c
      · simp [block_account, hr, hfo]
      · simp [block_account, hr, hfo]
    rw [hd]; exact h
  · have hd : (block_account db j).2 =
        { db with accounts := (find_one_and_update db.accounts
          (fun a => a.id == j && a.status == "Active")
          (fun a => { a with status := "Blocked" })).2 } := by
      simp [block_account, hr]
    rw [hd]
    refine balInv_fOAU i bal0 db j _ _ ?_ (fun b => rfl) (fun b => rfl) h
    intro b hb
    simp only [Bool.and_eq_true, beq_iff_eq] at hb
    exact hb.1

lemma balInv_close (i : Nat) (bal0 : ℚ) (db : DB) (j : Nat)
    (h : BalInv i bal0 db) : BalInv i bal0 (close_account db j).2 := by
  rcases hfo : findOne db.accounts j with _ | c
  · have hd : (close_account db j).2 = db := by simp [close_account, hfo]
    rw [hd]; exact h
  · by_cases hbz : c.balance ≠ 0
    · have hd : (close_account db j).2 = db := by simp [close_account, hfo, hbz]
      rw [hd]; exact h
    · rcases hr : (find_one_and_update db.accounts
        (fun a => a.id == j && a.status != "Closed")
        (fun a => { a with status := "Closed" })).1 with _ | b
      · have hd : (close_account db j).2 = db := by
          simp [close_account, hfo, hbz, hr]
        rw [hd]; exact h
      · have hd : (close_account db j).2 =
            { db with accounts := (find_one_and_update db.accounts
              (fun a => a.id == j && a.status != "Closed")
              (fun a => { a with status := "Closed" })).2 } := by
          simp [close_account, hfo, hbz, hr]
        rw [hd]
        refine balInv_fOAU i bal0 db j _ _ ?_ (fun b => rfl) (fun b => rfl) h
        intro b hb
        simp only [Bool.and_eq_true, beq_iff_eq] at hb
        exact hb.1

lemma balInv_applyOp (i : Nat) (bal0 : ℚ) (db : DB) (op : Op)
    (h : BalInv i bal0 db) : BalInv i bal0 (applyOp db op) := by
  cases op with
  | deposit j amt => exact balInv_deposit i bal0 db j amt h
  | withdraw j amt => exact balInv_withdraw i bal0 db j amt h
  | update j data => exact balInv_update i bal0 db j data h
  | block j => exact balInv_block i bal0 db j h
  | close j => exact balInv_close i bal0 db j h

lemma balInv_runOps (i : Nat) (bal0 : ℚ) (ops : List Op) :
    ∀ db : DB, BalInv i bal0 db → BalInv i bal0 (runOps db ops) := by
  induction ops with
  | nil => exact fun db h => h
  | cons op rest ih =>
    intro db h
    have : runOps db (op :: rest) = runOps (applyOp db op) rest := rfl
    rw [this]
    exact ih (applyOp db op) (balInv_applyOp i bal0 db op h)

/-! ### The claims -/

/-- Claim C1 (refuted by the code): the statement operation should report
`opening_balance = round(current_balance - net, 2)` with deposits counted
positively, i.e. the balance held before the earliest logged transaction.
On the trace `create(balance 0); deposit(100)` the account balance is 100
and its single logged transaction is a Deposit of 100, so that value is
`round(100 - 100, 2) = 0`; but `get_statement_data` compares the stored
type `"Deposit"` against the lowercase `"deposit"` and therefore sums the
deposit negatively, reporting 200. -/
theorem claim_C1_opening_balance_bug :
    ((get_statement_data dbC1 1).map fun d => d.opening_balance) = some 200 ∧
    ((findOne dbC1.accounts 1).map fun a => a.balance) = some 100 ∧
    round2 (100 - signedSum 1 dbC1.transactions) = 0 := by
  refine ⟨?_, ?_, ?_⟩ <;> with_unfolding_all decide

/-- Claim C2: an account created by Create and thereafter touched only by a
sequential interleaving of Deposit, Withdraw, Update, Block and Close always
stores a balance equal to its creation balance plus the signed sum of its
logged transactions (deposits positive, withdrawals negative). -/
theorem claim_C2_balance_invariant (dbp : DB) (nm ad : String) (bal0 : ℚ)
    (mo : Int) (ops : List Op) (hbal : 0 ≤ bal0) (hmo : 0 ≤ mo)
    (hA : ∀ a ∈ dbp.accounts, a.id ≠ dbp.seq + 1)
    (hT : ∀ t ∈ dbp.transactions, t.account_id ≠ dbp.seq + 1) :
    ∃ a, findOne (runOps (create_account dbp nm bal0 mo ad).2 ops).accounts
        (dbp.seq + 1) = some a ∧
      a.balance = bal0 + signedSum (dbp.seq + 1)
        (runOps (create_account dbp nm bal0 mo ad).2 ops).transactions := by
  have hnb : ¬ bal0 < 0 := not_lt.mpr hbal
  have hnm : ¬ mo < 0 := not_lt.mpr hmo
  have hInv : BalInv (dbp.seq + 1) bal0 (create_account dbp nm bal0 mo ad).2 := by
    have hdb1 : (create_account dbp nm bal0 mo ad).2 =
        { dbp with
          accounts := dbp.accounts ++
            [{ id := dbp.seq + 1, name := nm, balance := bal0,
               status := "Active", no_of_months := mo, address := ad,
               created_at := dbp.now }],
          seq := dbp.seq + 1, now := dbp.now + 1 } := by
      simp [create_account, hnb, hnm]
    rw [hdb1]
    refine ⟨{ id := dbp.seq + 1, name := nm, balance := bal0,
              status := "Active", no_of_months := mo, address := ad,
              created_at := dbp.now }, ?_, ?_⟩
    · show (dbp.accounts ++ _).filter (fun x => x.id == dbp.seq + 1) = _
      rw [List.filter_append, filter_of_forall_ne dbp.accounts (dbp.seq + 1) hA]
      simp
    · show bal0 = bal0 + signedSum (dbp.seq + 1) dbp.transactions
      rw [signedSum_of_forall_ne (dbp.seq + 1) dbp.transactions hT]
      ring
  obtain ⟨a, hfil, hb⟩ :=
    balInv_runOps (dbp.seq + 1) bal0 ops _ hInv
  refine ⟨a, ?_, hb⟩
  unfold findOne
  exact filter_singleton_find? _ (dbp.seq + 1) a hfil

theorem claim_C2_witness :
    ∃ a, findOne (runOps (create_account db0 "Ann" 0 0 "Addr").2
        [Op.deposit 1 100, Op.withdraw 1 30]).accounts 1 = some a ∧
      a.balance = 0 + signedSum 1
        (runOps (create_account db0 "Ann" 0 0 "Addr").2
          [Op.deposit 1 100, Op.withdraw 1 30]).transactions :=
  claim_C2_balance_invariant db0 "Ann" "Addr" 0 0
    [Op.deposit 1 100, Op.withdraw 1 30]
    (by with_unfolding_all decide) (by decide)
    (by simp [db0]) (by simp [db0])

/-- Claim C3: for an account created with balance 0, then one deposit of
100 and one withdrawal of 30, the statement lists the two transactions in
ascending timestamp order with running balances 100.00 and 70.00. -/
theorem claim_C3_statement_scenario :
    ((account_statement dbS3 1).map fun s => s.transactions) =
      some [{ type := "Deposit", amount := 100, timestamp := 1,
              running_balance := 100 },
            { type := "Withdrawal", amount := 30, timestamp := 2,
              running_balance := 70 }] := by
  with_unfolding_all decide

/-- Claim C4: Deposit fails validation for `amount <= 0` regardless of
account state; otherwise it credits an existing Active account and appends
one Deposit transaction stamped with the current time, fails NotFound for
an absent account and PreconditionFailed for a non-Active one; every
failure leaves the state untouched. -/
theorem claim_C4_deposit_spec (db : DB) (i : Nat) (amt : ℚ) :
    (amt ≤ 0 →
      deposit db i amt = (.msg 400 "Deposit amount must be positive", db)) ∧
    (0 < amt → findOne db.accounts i = none →
      deposit db i amt =
        (.msg 404 ("Account with id " ++ toString i ++ " not found"), db)) ∧
    (0 < amt → ∀ a, db.accounts.filter (fun x => x.id == i) = [a] →
      a.status ≠ "Active" →
      deposit db i amt =
        (.msg 400 ("Cannot deposit to account status: " ++ a.status), db)) ∧
    (0 < amt → ∀ a, db.accounts.filter (fun x => x.id == i) = [a] →
      a.status = "Active" →
      deposit db i amt = (.acct 200 { a with balance := a.balance + amt },
        { db with
          accounts := (find_one_and_update db.accounts
            (fun x => x.id == i && x.status == "Active")
            (fun x => { x with balance := x.balance + amt })).2,
          transactions := db.transactions ++
            [{ account_id := i, type := "Deposit", amount := amt,
               timestamp := db.now }],
          now := db.now + 1 }) ∧
      (deposit db i amt).2.accounts.filter (fun x => x.id == i) =
        [{ a with balance := a.balance + amt }]) := by
  have hpid : ∀ b : Account,
      (b.id == i && b.status == "Active") = true → b.id = i := by
    intro b hb
    simp only [Bool.and_eq_true, beq_iff_eq] at hb
    exact hb.1
  have hfid : ∀ b : Account,
      ({ b with balance := b.balance + amt } : Account).id = b.id :=
    fun b => rfl
  refine ⟨?_, ?_, ?_, ?_⟩
  · intro hle
    simp [deposit, hle]
  · intro hpos hfo
    unfold findOne at hfo
    have hall := List.find?_eq_none.mp hfo
    have hnone := find_one_and_update_of_forall_false db.accounts
      (fun x => x.id == i && x.status == "Active")
      (fun x => { x with balance := x.balance + amt })
      (by
        intro b hb
        have := hall b hb
        simp only [Bool.not_eq_true] at this
        simp [this])
    simp [deposit, not_le.mpr hpos, hnone, findOne, hfo]
  · intro hpos a hfil hact
    have hpa : (a.id == i && a.status == "Active") = false := by
      simp [Bool.and_eq_true, beq_iff_eq, hact]
    have hnone := fOAU_miss db.accounts
      (fun x => x.id == i && x.status == "Active")
      (fun x => { x with balance := x.balance + amt }) i a hfil hpid hpa
    have hfo : findOne db.accounts i = some a := by
      unfold findOne
      exact filter_singleton_find? db.accounts i a hfil
    simp [deposit, not_le.mpr hpos, hnone, hfo]
  · intro hpos a hfil hact
    have hpa : (a.id == i && a.status == "Active") = true := by
      simp [Bool.and_eq_true, beq_iff_eq,
        filter_singleton_self db.accounts i a hfil, hact]
    obtain ⟨h1, h2⟩ := fOAU_hit db.accounts
      (fun x => x.id == i && x.status == "Active")
      (fun x => { x with balance := x.balance + amt }) i a hfil hpid hfid hpa
    have heq : deposit db i amt =
        (.acct 200 { a with balance := a.balance + amt },
        { db with
          accounts := (find_one_and_update db.accounts
            (fun x => x.id == i && x.status == "Active")
            (fun x => { x with balance := x.balance + amt })).2,
          transactions := db.transactions ++
            [{ account_id := i, type := "Deposit", amount := amt,
               timestamp := db.now }],
          now := db.now + 1 }) := by
      simp [deposit, not_le.mpr hpos, h1, log_transaction]
    refine ⟨heq, ?_⟩
    rw [heq]
    exact h2

theorem claim_C4_witness :
    (deposit dbW 1 5).2.accounts.filter (fun x => x.id == 1) =
      [{ acctW with balance := acctW.balance + 5 }] :=
  ((claim_C4_deposit_spec dbW 1 5).2.2.2 (by with_unfolding_all decide)
    acctW (by with_unfolding_all decide) (by decide)).2

/-- Claim C5: Withdraw on an existing Active account with
`0 < amount <= balance` debits exactly `amount` and appends one Withdrawal
transaction; `amount > balance` fails "Insufficient balance"; a non-Active
status fails PreconditionFailed; an absent account fails NotFound; and
every failure leaves the state untouched. -/
theorem claim_C5_withdraw_spec (db : DB) (i : Nat) (amt : ℚ) :
    (0 < amt → findOne db.accounts i = none →
      withdraw db i amt =
        (.msg 404 ("Account with id " ++ toString i ++ " not found"), db)) ∧
    (0 < amt → ∀ a, db.accounts.filter (fun x => x.id == i) = [a] →
      a.status ≠ "Active" →
      withdraw db i amt =
        (.msg 400 ("Cannot withdraw from account status: " ++ a.status), db)) ∧
    (0 < amt → ∀ a, db.accounts.filter (fun x => x.id == i) = [a] →
      a.status = "Active" → a.balance < amt →
      withdraw db i amt = (.msg 400 "Insufficient balance", db)) ∧
    (0 < amt → ∀ a, db.accounts.filter (fun x => x.id == i) = [a] →
      a.status = "Active" → amt ≤ a.balance →
      withdraw db i amt = (.acct 200 { a with balance := a.balance - amt },
        { db with
          accounts := (find_one_and_update db.accounts
            (fun x => x.id == i)
            (fun x => { x with balance := x.balance - amt })).2,
          transactions := db.transactions ++
            [{ account_id := i, type := "Withdrawal", amount := amt,
               timestamp := db.now }],
          now := db.now + 1 }) ∧
      (withdraw db i amt).2.accounts.filter (fun x => x.id == i) =
        [{ a with balance := a.balance - amt }]) := by
  have hpid : ∀ b : Account, (b.id == i) = true → b.id = i :=
    fun b hb => beq_iff_eq.mp hb
  have hfid : ∀ b : Account,
      ({ b with balance := b.balance - amt } : Account).id = b.id :=
    fun b => rfl
  refine ⟨?_, ?_, ?_, ?_⟩
  · intro hpos hfo
    simp [withdraw, not_le.mpr hpos, hfo]
  · intro hpos a hfil hact
    have hfo : findOne db.accounts i = some a := by
      unfold findOne
      exact filter_singleton_find? db.accounts i a hfil
    simp [withdraw, not_le.mpr hpos, hfo, hact]
  · intro hpos a hfil hact hins
    have hfo : findOne db.accounts i = some a := by
      unfold findOne
      exact filter_singleton_find? db.accounts i a hfil
    simp [withdraw, not_le.mpr hpos, hfo, hact, hins]
  · intro hpos a hfil hact hsuf
    have hfo : findOne db.accounts i = some a := by
      unfold findOne
      exact filter_singleton_find? db.accounts i a hfil
    have hpa : (a.id == i) = true :=
      beq_iff_eq.mpr (filter_singleton_self db.accounts i a hfil)
    obtain ⟨h1, h2⟩ := fOAU_hit db.accounts (fun x => x.id == i)
      (fun x => { x with balance := x.balance - amt }) i a hfil hpid hfid hpa
    have heq : withdraw db i amt =
        (.acct 200 { a with balance := a.balance - amt },
        { db with
          accounts := (find_one_and_update db.accounts
            (fun x => x.id == i)
            (fun x => { x with balance := x.balance - amt })).2,
          transactions := db.transactions ++
            [{ account_id := i, type := "Withdrawal", amount := amt,
               timestamp := db.now }],
          now := db.now + 1 }) := by
      simp [withdraw, not_le.mpr hpos, hfo, hact, not_lt.mpr hsuf, h1,
        log_transaction]
    refine ⟨heq, ?_⟩
    rw [heq]
    exact h2

theorem claim_C5_witness :
    withdraw dbW 1 100 = (.msg 400 "Insufficient balance", dbW) :=
  (claim_C5_withdraw_spec dbW 1 100).2.2.1 (by with_unfolding_all decide)
    acctW (by with_unfolding_all decide) (by decide)
    (by with_unfolding_all decide)

/-- Claim C6: for an existing account, Delete and Close fail with
PreconditionFailed exactly when the balance is non-zero and succeed exactly
when it is zero; successful Delete removes the account and all of its
transactions, successful Close leaves the account stored with status
Closed. -/
theorem claim_C6_delete_close_spec (db : DB) (i : Nat) (a : Account)
    (hfil : db.accounts.filter (fun x => x.id == i) = [a]) :
    (a.balance ≠ 0 →
      delete_account db i =
        (.msg 400 "Account must have a zero balance before deletion.", db) ∧
      close_account db i =
        (.msg 400 "Account must have a zero balance before closing.", db)) ∧
    (a.balance = 0 →
      statusOf (delete_account db i).1 = 200 ∧
      findOne (delete_account db i).2.accounts i = none ∧
      (delete_account db i).2.transactions.filter
        (fun t => t.account_id == i) = [] ∧
      statusOf (close_account db i).1 = 200 ∧
      ∃ a2, findOne (close_account db i).2.accounts i = some a2 ∧
        a2.status = "Closed") := by
  have hfo : findOne db.accounts i = some a := by
    unfold findOne
    exact filter_singleton_find? db.accounts i a hfil
  constructor
  · intro hnz
    constructor
    · simp [delete_account, hfo, hnz]
    · simp [close_account, hfo, hnz]
  · intro hz
    have hnnz : ¬ a.balance ≠ 0 := by simp [hz]
    have hdel : (delete_account db i).1 = .msg 200
          ("Account with id " ++ toString i ++
            " and all related transactions deleted") ∧
        (delete_account db i).2 =
          { db with
            accounts := db.accounts.eraseP (fun x => x.id == i),
            transactions := db.transactions.filter
              (fun t => t.account_id != i) } := by
      constructor
      · simp [delete_account, hfo, hnnz]
      · simp [delete_account, hfo, hnnz]
    refine ⟨by rw [hdel.1]; rfl, ?_, ?_, ?_, ?_⟩
    · rw [hdel.2]
      exact findOne_eraseP db.accounts i a hfil
    · rw [hdel.2]
      exact txfilter_filter_ne db.transactions i
    · by_cases hcl : a.status = "Closed"
      · have hpa : (a.id == i && a.status != "Closed") = false := by
          simp [hcl]
        have hnone := fOAU_miss db.accounts
          (fun x => x.id == i && x.status != "Closed")
          (fun x => { x with status := "Closed" }) i a hfil
          (fun b hb => by
            simp only [Bool.and_eq_true, beq_iff_eq] at hb
            exact hb.1) hpa
        simp [close_account, hfo, hnnz, hnone, statusOf]
      · have hpa : (a.id == i && a.status != "Closed") = true := by
          simp [bne, beq_iff_eq,
            filter_singleton_self db.accounts i a hfil, hcl]
        obtain ⟨h1, h2⟩ := fOAU_hit db.accounts
          (fun x => x.id == i && x.status != "Closed")
          (fun x => { x with status := "Closed" }) i a hfil
          (fun b hb => by
            simp only [Bool.and_eq_true, beq_iff_eq] at hb
            exact hb.1) (fun b => rfl) hpa
        simp [close_account, hfo, hnnz, h1, statusOf]
    · by_cases hcl : a.status = "Closed"
      · have hpa : (a.id == i && a.status != "Closed") = false := by
          simp [hcl]
        have hnone := fOAU_miss db.accounts
          (fun x => x.id == i && x.status != "Closed")
          (fun x => { x with status := "Closed" }) i a hfil
          (fun b hb => by
            simp only [Bool.and_eq_true, beq_iff_eq] at hb
            exact hb.1) hpa
        refine ⟨a, ?_, hcl⟩
        simp [close_account, hfo, hnnz, hnone, hfo]
      · have hpa : (a.id == i && a.status != "Closed") = true := by
          simp [bne, beq_iff_eq,
            filter_singleton_self db.accounts i a hfil, hcl]
        obtain ⟨h1, h2⟩ := fOAU_hit db.accounts
          (fun x => x.id == i && x.status != "Closed")
          (fun x => { x with status := "Closed" }) i a hfil
          (fun b hb => by
            simp only [Bool.and_eq_true, beq_iff_eq] at hb
            exact hb.1) (fun b => rfl) hpa
        refine ⟨{ a with status := "Closed" }, ?_, rfl⟩
        have hcl2 : (close_account db i).2 =
            { db with accounts := (find_one_and_update db.accounts
              (fun x => x.id == i && x.status != "Closed")
              (fun x => { x with status := "Closed" })).2 } := by
          simp [close_account, hfo, hnnz, h1]
        rw [hcl2]
        unfold findOne
        exact filter_singleton_find? _ i _ h2

theorem claim_C6_witness : statusOf (delete_account dbZ 1).1 = 200 :=
  ((claim_C6_delete_close_spec dbZ 1 acctZ (by with_unfolding_all decide)).2
    (by with_unfolding_all decide)).1

/-- Claim C7: for an existing Active account with a positive term, the
interest endpoint reports `round(balance * (0.05 / 12) * no_of_months, 2)`
and does not modify the state; a non-Active status fails
PreconditionFailed and a non-positive term fails validation; in particular
balance 1000 over 6 months yields exactly 25.00. -/
theorem claim_C7_interest_spec (db : DB) (i : Nat) (a : Account)
    (hfo : findOne db.accounts i = some a) :
    (a.status = "Active" → 0 < a.no_of_months →
      monthly_interest db i =
        (.ok { account_id := i, current_balance := round2 a.balance,
               no_of_months := a.no_of_months,
               calculated_interest_amount :=
                 round2 (a.balance * (ANNUAL_RATE / 12) *
                   (a.no_of_months : ℚ)) }, db)) ∧
    (a.status ≠ "Active" →
      monthly_interest db i = (.msg 400
        ("Cannot calculate interest for closed or inactive account status: "
          ++ a.status), db)) ∧
    (a.status = "Active" → a.no_of_months ≤ 0 →
      monthly_interest db i = (.msg 400
        "Account is not configured for monthly interest calculation (no_of_months is zero or negative).",
        db)) ∧
    (a.status = "Active" → a.balance = 1000 → a.no_of_months = 6 →
      (monthly_interest db i).1 =
        .ok { account_id := i, current_balance := 1000, no_of_months := 6,
              calculated_interest_amount := 25 }) := by
  refine ⟨?_, ?_, ?_, ?_⟩
  · intro hact hpos
    have hassoc : a.balance * (ANNUAL_RATE / 12) * (a.no_of_months : ℚ) =
        a.balance * (ANNUAL_RATE / 12 * (a.no_of_months : ℚ)) :=
      mul_assoc _ _ _
    rw [hassoc]
    simp [monthly_interest, hfo, hact, not_le.mpr hpos]
  · intro hact
    simp [monthly_interest, hfo, hact]
  · intro hact hle
    simp [monthly_interest, hfo, hact, hle]
  · intro hact hbal hmo
    have h1000 : round2 (1000 : ℚ) = 1000 := by
      with_unfolding_all decide
    have h25 : round2 ((1000 : ℚ) * (ANNUAL_RATE / 12 * (6 : ℚ))) =
        25 := by
      with_unfolding_all decide
    simp [monthly_interest, hfo, hact, hmo, hbal, h1000, h25]

theorem claim_C7_witness :
    (monthly_interest dbI 1).1 =
      .ok { account_id := 1, current_balance := 1000, no_of_months := 6,
            calculated_interest_amount := 25 } :=
  (claim_C7_interest_spec dbI 1 acctI (by with_unfolding_all decide)).2.2.2
    (by decide) (by with_unfolding_all decide) (by decide)

/-- Claim C8: Block on an already Blocked or Closed account, and Close on
an already Closed zero-balance account, answer HTTP 200 with a notice and
leave the stored state (in particular the status) unchanged. -/
theorem claim_C8_idempotent_block_close (db : DB) (i : Nat) (a : Account)
    (hfil : db.accounts.filter (fun x => x.id == i) = [a]) :
    (a.status = "Blocked" ∨ a.status = "Closed" →
      block_account db i = (.msg 200
        ("Account with id " ++ toString i ++ " is already " ++ a.status),
        db)) ∧
    (a.status = "Closed" → a.balance = 0 →
      close_account db i = (.msg 200
        ("Account with id " ++ toString i ++ " is already Closed"), db)) := by
  have hfo : findOne db.accounts i = some a := by
    unfold findOne
    exact filter_singleton_find? db.accounts i a hfil
  constructor
  · intro hst
    have hact : a.status ≠ "Active" := by
      rcases hst with h | h <;> rw [h] <;> decide
    have hpa : (a.id == i && a.status == "Active") = false := by
      simp [Bool.and_eq_true, beq_iff_eq, hact]
    have hnone := fOAU_miss db.accounts
      (fun x => x.id == i && x.status == "Active")
      (fun x => { x with status := "Blocked" }) i a hfil
      (fun b hb => by
        simp only [Bool.and_eq_true, beq_iff_eq] at hb
        exact hb.1) hpa
    simp [block_account, hnone, hfo]
  · intro hcl hz
    have hnnz : ¬ a.balance ≠ 0 := by simp [hz]
    have hpa : (a.id == i && a.status != "Closed") = false := by
      simp [hcl]
    have hnone := fOAU_miss db.accounts
      (fun x => x.id == i && x.status != "Closed")
      (fun x => { x with status := "Closed" }) i a hfil
      (fun b hb => by
        simp only [Bool.and_eq_true, beq_iff_eq] at hb
        exact hb.1) hpa
    simp [close_account, hfo, hnnz, hnone]

theorem claim_C8_witness :
    block_account dbB 1 = (.msg 200
      ("Account with id " ++ toString (1 : Nat) ++ " is already " ++
        acctB.status), dbB) :=
  (claim_C8_idempotent_block_close dbB 1 acctB
    (by with_unfolding_all decide)).1 (Or.inl (by decide))

/-- Claim C9 as stated is refuted: Create checks only that the name field
is present, so creating an account with the empty string as name persists
an account document whose name is empty. -/
theorem claim_C9_counterexample :
    ((findOne (create_account db0 "" 0 0 "Address not specified").2.accounts
      1).map fun a => a.name) = some "" := by
  with_unfolding_all decide

/-- Claim C9, amended: Update never persists an empty name (updating a
name to the empty string fails validation), and Create persists the
provided name verbatim, so every stored name stays non-empty as long as
Create is only invoked with non-empty names. -/
theorem claim_C9_amended_nonempty_names (db : DB) (i : Nat)
    (data : UpdatePayload) (nm ad : String) (bal : ℚ) (mo : Int) :
    (noEmptyName db.accounts →
      noEmptyName (update_account db i data).2.accounts) ∧
    (nm ≠ "" → noEmptyName db.accounts →
      noEmptyName (create_account db nm bal mo ad).2.accounts) := by
  constructor
  · intro hne
    by_cases h1 : data.name = some ""
    · have hd : (update_account db i data).2 = db := by
        simp [update_account, h1]
      rw [hd]; exact hne
    · by_cases h2 : data.no_of_months.getD 0 < 0
      · have hd : (update_account db i data).2 = db := by
          simp [update_account, h1, h2]
        rw [hd]; exact hne
      · by_cases h3 : data.address = some ""
        · have hd : (update_account db i data).2 = db := by
            simp [update_account, h1, h2, h3]
          rw [hd]; exact hne
        · by_cases h4 : data.name = none ∧ data.no_of_months = none ∧
            data.address = none
          · have hd : (update_account db i data).2 = db := by
              simp [update_account, h1, h2, h3, h4]
            rw [hd]; exact hne
          · rcases hr : (find_one_and_update db.accounts
              (fun x => x.id == i) (applyUpdate data)).1 with _ | b
            · have hd : (update_account db i data).2 = db := by
                simp [update_account, h1, h2, h3, h4, hr]
              rw [hd]; exact hne
            · have hd : (update_account db i data).2 =
                  { db with accounts := (find_one_and_update db.accounts
                    (fun x => x.id == i) (applyUpdate data)).2 } := by
                simp [update_account, h1, h2, h3, h4, hr]
              rw [hd]
              intro b hb
              rcases mem_fOAU_snd db.accounts (fun x => x.id == i)
                (applyUpdate data) b hb with hmem | ⟨c, hc, rfl⟩
              · exact hne b hmem
              · show (applyUpdate data c).name ≠ ""
                rcases hn : data.name with _ | s
                · simpa [applyUpdate, hn] using hne c hc
                · have hs : s ≠ "" := by
                    intro hcon
                    exact h1 (by rw [hn, hcon])
                  simpa [applyUpdate, hn] using hs
  · intro hnm hne
    by_cases hb : bal < 0
    · have hd : (create_account db nm bal mo ad).2 = db := by
        simp [create_account, hb]
      rw [hd]; exact hne
    · by_cases hm : mo < 0
      · have hd : (create_account db nm bal mo ad).2 = db := by
          simp [create_account, hb, hm]
        rw [hd]; exact hne
      · have hd : (create_account db nm bal mo ad).2 =
            { db with
              accounts := db.accounts ++
                [{ id := db.seq + 1, name := nm, balance := bal,
                   status := "Active", no_of_months := mo, address := ad,
                   created_at := db.now }],
              seq := db.seq + 1, now := db.now + 1 } := by
          simp [create_account, hb, hm]
        rw [hd]
        intro b hbm
        rcases List.mem_append.mp hbm with hmem | hmem
        · exact hne b hmem
        · rw [List.mem_singleton.mp hmem]
          exact hnm

theorem claim_C9_witness :
    noEmptyName (update_account dbW 1 payloadW).2.accounts :=
  (claim_C9_amended_nonempty_names dbW 1 payloadW "Bob" "x" 0 0).1
    (by intro a ha; simp [dbW, acctW] at ha; rw [ha]; decide)

/-- Claim C10: in sequential execution Withdraw's final fallback branch is
dead code: the operation never answers the HTTP 500 "unknown error"
response, because when all pre-checks pass the unconditional update on the
account id always matches the account just read. -/
theorem claim_C10_fallback_unreachable (db : DB) (i : Nat) (amt : ℚ) :
    (withdraw db i amt).1 ≠
      .msg 500 "Withdrawal failed due to an unknown error" := by
  by_cases hamt : amt ≤ 0
  · simp [withdraw, hamt]
  · rcases hfo : findOne db.accounts i with _ | a
    · simp [withdraw, hamt, hfo]
    · by_cases hact : a.status = "Active"
      · by_cases hins : a.balance < amt
        · simp [withdraw, hamt, hfo, hact, hins]
        · have h1 : (find_one_and_update db.accounts (fun x => x.id == i)
              (fun x => { x with balance := x.balance - amt })).1 =
              some { a with balance := a.balance - amt } := by
            rw [find_one_and_update_fst]
            unfold findOne at hfo
            rw [hfo]
            rfl
          simp [withdraw, hamt, hfo, hact, hins, h1]
      · simp [withdraw, hamt, hfo, hact]

theorem claim_C10_witness :
    (withdraw dbW 1 5).1 ≠
      .msg 500 "Withdrawal failed due to an unknown error" :=
  claim_C10_fallback_unreachable dbW 1 5

end Banking
